import Mathlib

/-!
Verification development for the it87 sensor driver (src/it87.cpp, src/it87.h,
src/it87_driver.c).  The driver's hardware accesses are embedded as a
deterministic state machine over an `IOState`: every `read_io_8` consumes the
next value of an oracle (the byte the hardware would have returned), and every
I/O operation is recorded in a trace.  The Super-I/O configuration-mode
("MB PnP mode") semantics of the chip are modelled from the spec, section 4.2:
the 4-byte unlock sequence written to port 0x2E puts the chip in configuration
mode, and writing a value with bit 1 set to indexed register 0x02 returns it to
the "wait for key" state.
-/

/-! ### Register index constants

The repository header `it87_regs.h` is not under src/.  Modelled from the spec:
the numeric register indices below are the ITE IT87xx datasheet values that the
missing header defines.  No claim depends on the exact numeric values, only on
the order and pairing of the register accesses. -/

def IT87_ADDR_PORT_OFFSET : Nat := 5
def IT87_DATA_PORT_OFFSET : Nat := 6
def IT87_REG_CONFIG : Nat := 0x00
def IT87_REG_VIN0 : Nat := 0x20
def IT87_REG_VIN1 : Nat := 0x21
def IT87_REG_VIN2 : Nat := 0x22
def IT87_REG_VIN3 : Nat := 0x23
def IT87_REG_VIN4 : Nat := 0x24
def IT87_REG_VIN5 : Nat := 0x25
def IT87_REG_VIN6 : Nat := 0x26
def IT87_REG_VIN7 : Nat := 0x27
def IT87_REG_VBAT : Nat := 0x28
def IT87_REG_TEMP0 : Nat := 0x29
def IT87_REG_TEMP1 : Nat := 0x2A
def IT87_REG_TEMP2 : Nat := 0x2B
def IT87_REG_FAN_1 : Nat := 0x0D
def IT87_REG_FAN_2 : Nat := 0x0E
def IT87_REG_FAN_3 : Nat := 0x0F
def IT87_REG_FAN_1_EXT : Nat := 0x18
def IT87_REG_FAN_2_EXT : Nat := 0x19
def IT87_REG_FAN_3_EXT : Nat := 0x1A
def IT87_REG_FAN_4_LSB : Nat := 0x80
def IT87_REG_FAN_4_MSB : Nat := 0x81
def IT87_REG_FAN_5_LSB : Nat := 0x82
def IT87_REG_FAN_5_MSB : Nat := 0x83
def IT87_REG_FAN_16BITS : Nat := 0x0C
def IT87_REG_ITE_VENDOR_ID : Nat := 0x58
def IT87_REG_CORE_ID : Nat := 0x5B
def IT87_CONFIG_SELECT_CHIP_VER : Nat := 0x5C

/-! ### Machine-integer conversions -/

/-- C++ conversion of an integer value to `int16` (two's-complement wrap),
as performed by the assignments into the `int16` fields of
`it87_sensors_data` (src/it87.h lines 25-29). -/
def toInt16 (n : Int) : Int := (n + 32768) % 65536 - 32768

/-- C conversion of a 32-bit unsigned value to (32-bit) `int`
(two's-complement wrap). -/
def toInt32 (n : Int) : Int := (n + 2147483648) % 4294967296 - 2147483648

/-! ### Pure decode functions (src/it87.cpp lines 202-225) -/

/-- `TwosComplement` from src/it87.cpp lines 202-206:
`return (value & 1 << 7) ? (~(unsigned)value) + 1 : value;`.
`value` is a `uint8`; `~(unsigned)value` complements all 32 bits
(`4294967295 - value`), the `+ 1` wraps modulo 2^32, and the result is
returned as a signed 32-bit `int`. -/
def TwosComplement (value : Nat) : Int :=
  if value &&& (1 <<< 7) ≠ 0 then
    toInt32 (((4294967295 - value) + 1) % 4294967296)
  else
    (value : Int)

/-- `CountToRPM` from src/it87.cpp lines 209-217 (identical in
src/it87_driver.c lines 185-193).  `count` is a `uint8`. -/
def CountToRPM (count : Nat) : Nat :=
  if count = 255 then 0
  else 1350000 / ((if count < 2 then 152 else count) * 2)

/-- The divisor used by `CountToRPM` when it does divide
(i.e. when `count ≠ 255`): the clamped count times two. -/
def CountToRPM_divisor (count : Nat) : Nat :=
  (if count < 2 then 152 else count) * 2

/-- `Count16ToRPM` from src/it87.cpp lines 219-225.  `count` is a `uint16`. -/
def Count16ToRPM (count : Nat) : Nat :=
  if count = 0 ∨ count = 255 ∨ count = 0xffff then 0
  else 675000 / count

/-- Scale-1.68 voltage product from src/it87.cpp lines 259 and 265:
`ITESensorRead(...) * ADC_RES * 1.68`.  The source computes this with the
`double` literal `1.68` and truncates on assignment to `int16`; for every
byte count 0..255 the truncated `double` product coincides with the exact
rational product `count * 16 * 168 / 100` truncated (the `double` nearest to
1.68 is slightly above 168/100 and the excess never carries the product across
an integer boundary for these 256 inputs), so the multiply is embedded as the
rational (natural-number) truncation. -/
def scale168 (c : Nat) : Nat := c * 16 * 168 / 100

/-- Decode of a scale-1 voltage channel (`raw * ADC_RES`, `ADC_RES = 16`),
stored into an `int16` field (src/it87.cpp lines 256-258, 262, 264, 266). -/
def decodeVolt1 (c : Nat) : Int := toInt16 ((c * 16 : Nat))

/-- Decode of a scale-1.68 voltage channel, stored into an `int16` field
(src/it87.cpp lines 259, 265). -/
def decodeVolt168 (c : Nat) : Int := toInt16 ((scale168 c : Nat))

/-- Decode of the scale-4 (+12V) voltage channel, stored into an `int16`
field (src/it87.cpp line 260). -/
def decodeVolt4 (c : Nat) : Int := toInt16 ((c * 16 * 4 : Nat))

/-! ### The I/O state machine -/

/-- One ISA port I/O operation (port, byte value). -/
inductive IOEvent where
  | wr (port val : Nat)
  | rd (port val : Nat)
deriving DecidableEq

/-- State threaded through every modelled driver operation.
`oracle n` is the byte returned by the n-th `read_io_8` call.  `configMode`,
`unlockProgress` and `pnpAddr` model the chip's Super-I/O configuration-mode
state machine (modelled from the spec, section 4.2); `enters`/`exits` count
how many times the chip entered and left configuration mode. -/
structure IOState where
  oracle : Nat → Nat
  nreads : Nat
  trace : List IOEvent
  configMode : Bool
  unlockProgress : Nat
  pnpAddr : Nat
  enters : Nat
  exits : Nat

/-- A fresh state: no reads performed, chip in its normal "wait for key"
state. -/
def initState (o : Nat → Nat) : IOState :=
  { oracle := o, nreads := 0, trace := [], configMode := false,
    unlockProgress := 0, pnpAddr := 0, enters := 0, exits := 0 }

/-- `gISA->write_io_8(port, val)` together with the chip's reaction to it.
Out of configuration mode, writes to port 0x2E advance the unlock-sequence
recognizer (0x87, 0x01, 0x55, 0x55 enters configuration mode).  In
configuration mode, a write to 0x2E latches the PnP register index, and a
write to 0x2F of a value with bit 1 set while register 0x02 is addressed
returns the chip to the "wait for key" state.  All call sites pass values
already in the `uint8` range. -/
def write_io_8 (port val : Nat) (s : IOState) : IOState :=
  let s' := { s with trace := s.trace ++ [IOEvent.wr port val] }
  if s.configMode then
    if port = 0x2E then { s' with pnpAddr := val }
    else if port = 0x2F ∧ s.pnpAddr = 2 ∧ val.testBit 1 then
      { s' with configMode := false, exits := s.exits + 1 }
    else s'
  else
    if port = 0x2E then
      if s.unlockProgress = 0 ∧ val = 0x87 then { s' with unlockProgress := 1 }
      else if s.unlockProgress = 1 ∧ val = 0x01 then { s' with unlockProgress := 2 }
      else if s.unlockProgress = 2 ∧ val = 0x55 then { s' with unlockProgress := 3 }
      else if s.unlockProgress = 3 ∧ val = 0x55 then
        { s' with unlockProgress := 0, configMode := true, enters := s.enters + 1 }
      else { s' with unlockProgress := 0 }
    else s'

/-- `gISA->read_io_8(port)`: returns the next oracle byte. -/
def read_io_8 (port : Nat) (s : IOState) : Nat × IOState :=
  let v := s.oracle s.nreads % 256
  (v, { s with nreads := s.nreads + 1, trace := s.trace ++ [IOEvent.rd port v] })

/-- `read_indexed` from src/it87.cpp lines 48-53. -/
def read_indexed (port reg : Nat) (s : IOState) : Nat × IOState :=
  let s := write_io_8 port reg s
  read_io_8 (port + 1) s

/-- `write_indexed` from src/it87.cpp lines 56-61. -/
def write_indexed (port reg value : Nat) (s : IOState) : IOState :=
  let s := write_io_8 port reg s
  write_io_8 (port + 1) value s

/-- `enter_mb_pnp_mode` from src/it87.cpp lines 64-72. -/
def enter_mb_pnp_mode (s : IOState) : IOState :=
  let s := write_io_8 0x2E 0x87 s
  let s := write_io_8 0x2E 0x01 s
  let s := write_io_8 0x2E 0x55 s
  write_io_8 0x2E 0x55 s

/-- `exit_mb_pnp_mode` from src/it87.cpp lines 75-81:
`write_indexed(0x2E, 0x02, read_indexed(0x2E, 0x02) | (1 << 1));`. -/
def exit_mb_pnp_mode (s : IOState) : IOState :=
  let r := read_indexed 0x2E 0x02 s
  write_indexed 0x2E 0x02 (r.1 ||| (1 <<< 1)) r.2

/-- The closed set of chip IDs accepted by the `switch` in `it87xx_detect`
(src/it87.cpp lines 92-107), in source order. -/
def supportedChipIDs : List Nat :=
  [0x8625, 0x8628, 0x8655,
   0x8705, 0x8712, 0x8718, 0x8720, 0x8721, 0x8726, 0x8728, 0x8771, 0x8772]

/-- `it87xx_detect` from src/it87.cpp lines 84-112. -/
def it87xx_detect (s : IOState) : Nat × IOState :=
  let s := enter_mb_pnp_mode s
  let r1 := read_indexed 0x2E 0x20 s
  let r2 := read_indexed 0x2E 0x21 r1.2
  let chip_id := (r1.1 <<< 8) ||| r2.1
  let result := if chip_id ∈ supportedChipIDs then chip_id else 0
  let s := exit_mb_pnp_mode r2.2
  (result, s)

/-- `find_isa_port_address` from src/it87.cpp lines 115-134. -/
def find_isa_port_address (s : IOState) : Nat × IOState :=
  let s := enter_mb_pnp_mode s
  let s := write_indexed 0x2E 0x07 0x4 s
  let s := write_indexed 0x2E 0x30 0x1 s
  let r1 := read_indexed 0x2E 0x60 s
  let r2 := read_indexed 0x2E 0x61 r1.2
  let port := (r1.1 <<< 8) ||| r2.1
  let s := exit_mb_pnp_mode r2.2
  (port, s)

/-- `it87_config` from src/it87.cpp lines 155-167.  Note the source addresses
the runtime configuration register through the port pair
`(gBaseAddress, gBaseAddress + 1)` (it calls `read_indexed`/`write_indexed`
with `gBaseAddress` itself).  The masks 191 and 254 are `~(1 << 6)` and
`~(1 << 0)` restricted to a `uint8` value. -/
def it87_config (gBaseAddress : Nat) (enable : Bool) (s : IOState) : IOState :=
  let r := read_indexed gBaseAddress IT87_REG_CONFIG s
  let value :=
    if enable then (r.1 ||| (1 <<< 6)) ||| (1 <<< 0)
    else (r.1 &&& 191) &&& 254
  write_indexed gBaseAddress IT87_REG_CONFIG value r.2

/-- `ITESensorRead` from src/it87.cpp lines 173-178: write the register
number to `IT87_ADDRESS_REG = gBaseAddress + 5`, read from
`IT87_DATA_REG = gBaseAddress + 6`. -/
def ITESensorRead (gBaseAddress regNum : Nat) (s : IOState) : Nat × IOState :=
  let s := write_io_8 (gBaseAddress + IT87_ADDR_PORT_OFFSET) regNum s
  read_io_8 (gBaseAddress + IT87_DATA_PORT_OFFSET) s

/-- `ITESensorWrite` from src/it87.cpp lines 181-186. -/
def ITESensorWrite (gBaseAddress regNum value : Nat) (s : IOState) : IOState :=
  let s := write_io_8 (gBaseAddress + IT87_ADDR_PORT_OFFSET) regNum s
  write_io_8 (gBaseAddress + IT87_DATA_PORT_OFFSET) value s

/-- `it87_sensors_data` from src/it87.h lines 25-29: three arrays of `int16`
fields. -/
structure it87_sensors_data where
  temps : Fin 3 → Int
  fans : Fin 5 → Int
  voltages : Fin 9 → Int

/-- `it87_refresh` from src/it87.cpp lines 245-292.  The voltage and
temperature assignments happen unconditionally; the fan assignments branch on
`gChipID == 0x8705 || gChipID == 0x8712` (legacy 8-bit tachometers, three
fans) versus 16-bit tachometers (five fans, low byte read first, then the
extension byte shifted left by 8). -/
def it87_refresh (gChipID gBaseAddress : Nat) (data : it87_sensors_data)
    (s : IOState) : it87_sensors_data × IOState :=
  let s := enter_mb_pnp_mode s
  let s := it87_config gBaseAddress true s
  let v0 := ITESensorRead gBaseAddress IT87_REG_VIN0 s
  let v1 := ITESensorRead gBaseAddress IT87_REG_VIN1 v0.2
  let v2 := ITESensorRead gBaseAddress IT87_REG_VIN2 v1.2
  let v3 := ITESensorRead gBaseAddress IT87_REG_VIN3 v2.2
  let v4 := ITESensorRead gBaseAddress IT87_REG_VIN4 v3.2
  let v5 := ITESensorRead gBaseAddress IT87_REG_VIN5 v4.2
  let v6 := ITESensorRead gBaseAddress IT87_REG_VIN6 v5.2
  let v7 := ITESensorRead gBaseAddress IT87_REG_VIN7 v6.2
  let v8 := ITESensorRead gBaseAddress IT87_REG_VBAT v7.2
  let voltages' : Fin 9 → Int := fun i =>
    if i = 0 then decodeVolt1 v0.1
    else if i = 1 then decodeVolt1 v1.1
    else if i = 2 then decodeVolt1 v2.1
    else if i = 3 then decodeVolt168 v3.1
    else if i = 4 then decodeVolt4 v4.1
    else if i = 5 then decodeVolt1 v5.1
    else if i = 6 then decodeVolt1 v6.1
    else if i = 7 then decodeVolt168 v7.1
    else decodeVolt1 v8.1
  let t0 := ITESensorRead gBaseAddress IT87_REG_TEMP0 v8.2
  let t1 := ITESensorRead gBaseAddress IT87_REG_TEMP1 t0.2
  let t2 := ITESensorRead gBaseAddress IT87_REG_TEMP2 t1.2
  let temps' : Fin 3 → Int := fun i =>
    if i = 0 then toInt16 (TwosComplement t0.1)
    else if i = 1 then toInt16 (TwosComplement t1.1)
    else toInt16 (TwosComplement t2.1)
  if gChipID = 0x8705 ∨ gChipID = 0x8712 then
    let f1 := ITESensorRead gBaseAddress IT87_REG_FAN_1 t2.2
    let f2 := ITESensorRead gBaseAddress IT87_REG_FAN_2 f1.2
    let f3 := ITESensorRead gBaseAddress IT87_REG_FAN_3 f2.2
    let fans' : Fin 5 → Int := fun i =>
      if i = 0 then ((CountToRPM f1.1 : Int) |> toInt16)
      else if i = 1 then ((CountToRPM f2.1 : Int) |> toInt16)
      else if i = 2 then ((CountToRPM f3.1 : Int) |> toInt16)
      else data.fans i
    let s := it87_config gBaseAddress false f3.2
    let s := exit_mb_pnp_mode s
    ({ temps := temps', fans := fans', voltages := voltages' }, s)
  else
    let f1l := ITESensorRead gBaseAddress IT87_REG_FAN_1 t2.2
    let f1h := ITESensorRead gBaseAddress IT87_REG_FAN_1_EXT f1l.2
    let f2l := ITESensorRead gBaseAddress IT87_REG_FAN_2 f1h.2
    let f2h := ITESensorRead gBaseAddress IT87_REG_FAN_2_EXT f2l.2
    let f3l := ITESensorRead gBaseAddress IT87_REG_FAN_3 f2h.2
    let f3h := ITESensorRead gBaseAddress IT87_REG_FAN_3_EXT f3l.2
    let f4l := ITESensorRead gBaseAddress IT87_REG_FAN_4_LSB f3h.2
    let f4h := ITESensorRead gBaseAddress IT87_REG_FAN_4_MSB f4l.2
    let f5l := ITESensorRead gBaseAddress IT87_REG_FAN_5_LSB f4h.2
    let f5h := ITESensorRead gBaseAddress IT87_REG_FAN_5_MSB f5l.2
    let fans' : Fin 5 → Int :=  fun i =>
      if i = 0 then ((Count16ToRPM (f1l.1 ||| (f1h.1 <<< 8)) : Int) |> toInt16)
      else if i = 1 then ((Count16ToRPM (f2l.1 ||| (f2h.1 <<< 8)) : Int) |> toInt16)
      else if i = 2 then ((Count16ToRPM (f3l.1 ||| (f3h.1 <<< 8)) : Int) |> toInt16)
      else if i = 3 then ((Count16ToRPM (f4l.1 ||| (f4h.1 <<< 8)) : Int) |> toInt16)
      else ((Count16ToRPM (f5l.1 ||| (f5h.1 <<< 8)) : Int) |> toInt16)
    let s := it87_config gBaseAddress false f5h.2
    let s := exit_mb_pnp_mode s
    ({ temps := temps', fans := fans', voltages := voltages' }, s)

/-- Haiku driver status codes used by `init_hardware`/`init_driver`
(src/it87.cpp lines 403-446).  The numeric values come from the platform
headers, which are not part of the repository; only their distinctness
matters here, so they are modelled as an enumeration. -/
inductive status_t where
  | B_OK
  | ENOSYS
  | B_DEVICE_NOT_FOUND
deriving DecidableEq

/-- `init_hardware` from src/it87.cpp lines 403-417.  `moduleOk` models
whether `get_module(B_ISA_MODULE_NAME, ...)` succeeded. -/
def init_hardware (moduleOk : Bool) (s : IOState) : status_t × IOState :=
  if moduleOk = false then (status_t.ENOSYS, s)
  else
    let r := it87xx_detect s
    if r.1 = 0 then (status_t.B_DEVICE_NOT_FOUND, r.2)
    else (status_t.B_OK, r.2)

/-- `init_driver` from src/it87.cpp lines 420-446.  Returns the status and
the resolved `gBaseAddress`.  `gChipID` is the chip ID saved by
`init_hardware`; on chips other than 0x8705/0x8712 the low three bits of the
16-bit-tachometer enable register are set. -/
def init_driver (moduleOk : Bool) (gChipID : Nat) (s : IOState) :
    status_t × Nat × IOState :=
  if moduleOk = false then (status_t.ENOSYS, 0, s)
  else
    let r := find_isa_port_address s
    let gBaseAddress := r.1
    if gBaseAddress = 0 then (status_t.ENOSYS, gBaseAddress, r.2)
    else
      let rv := ITESensorRead gBaseAddress IT87_REG_ITE_VENDOR_ID r.2
      let rc := ITESensorRead gBaseAddress IT87_REG_CORE_ID rv.2
      let rr := ITESensorRead gBaseAddress IT87_CONFIG_SELECT_CHIP_VER rc.2
      if gChipID ≠ 0x8705 ∧ gChipID ≠ 0x8712 then
        let ce := ITESensorRead gBaseAddress IT87_REG_FAN_16BITS rr.2
        let s := ITESensorWrite gBaseAddress IT87_REG_FAN_16BITS
          (ce.1 ||| 0x7) ce.2
        (status_t.B_OK, gBaseAddress, s)
      else (status_t.B_OK, gBaseAddress, rr.2)

/-- Values written through an indexed port pair `(ap, ap + 1)` to register
`reg`: scans the trace for a write of `reg` to the address port immediately
followed by a write to the data port, and collects the data bytes. -/
def indexedWrites (ap reg : Nat) : List IOEvent → List Nat
  | IOEvent.wr p1 r :: IOEvent.wr p2 v :: rest =>
    (if p1 = ap ∧ r = reg ∧ p2 = ap + 1 then [v] else []) ++
      indexedWrites ap reg (IOEvent.wr p2 v :: rest)
  | _ :: rest => indexedWrites ap reg rest
  | [] => []

/-! ### Projection helper lemmas

`write_io_8` branches only affect the device-model bookkeeping; the oracle
and the read counter are untouched, which lets read values be computed
without resolving the port decode. -/

lemma write_io_8_oracle (p v : Nat) (s : IOState) :
    (write_io_8 p v s).oracle = s.oracle := by
  simp only [write_io_8]
  repeat' split
  all_goals rfl

lemma write_io_8_nreads (p v : Nat) (s : IOState) :
    (write_io_8 p v s).nreads = s.nreads := by
  simp only [write_io_8]
  repeat' split
  all_goals rfl

lemma read_io_8_fst (p : Nat) (s : IOState) :
    (read_io_8 p s).1 = s.oracle s.nreads % 256 := rfl

lemma read_io_8_snd_oracle (p : Nat) (s : IOState) :
    (read_io_8 p s).2.oracle = s.oracle := rfl

lemma read_io_8_snd_nreads (p : Nat) (s : IOState) :
    (read_io_8 p s).2.nreads = s.nreads + 1 := rfl

lemma read_indexed_fst (p r : Nat) (s : IOState) :
    (read_indexed p r s).1 = s.oracle s.nreads % 256 := by
  simp [read_indexed, read_io_8_fst, write_io_8_oracle, write_io_8_nreads]

lemma read_indexed_snd_oracle (p r : Nat) (s : IOState) :
    (read_indexed p r s).2.oracle = s.oracle := by
  simp [read_indexed, read_io_8_snd_oracle, write_io_8_oracle]

lemma read_indexed_snd_nreads (p r : Nat) (s : IOState) :
    (read_indexed p r s).2.nreads = s.nreads + 1 := by
  simp [read_indexed, read_io_8_snd_nreads, write_io_8_nreads]

lemma write_indexed_oracle (p r v : Nat) (s : IOState) :
    (write_indexed p r v s).oracle = s.oracle := by
  simp [write_indexed, write_io_8_oracle]

lemma write_indexed_nreads (p r v : Nat) (s : IOState) :
    (write_indexed p r v s).nreads = s.nreads := by
  simp [write_indexed, write_io_8_nreads]

lemma enter_mb_pnp_mode_oracle (s : IOState) :
    (enter_mb_pnp_mode s).oracle = s.oracle := by
  simp [enter_mb_pnp_mode, write_io_8_oracle]

lemma enter_mb_pnp_mode_nreads (s : IOState) :
    (enter_mb_pnp_mode s).nreads = s.nreads := by
  simp [enter_mb_pnp_mode, write_io_8_nreads]

lemma exit_mb_pnp_mode_oracle (s : IOState) :
    (exit_mb_pnp_mode s).oracle = s.oracle := by
  simp [exit_mb_pnp_mode, write_indexed_oracle, read_indexed_snd_oracle]

lemma exit_mb_pnp_mode_nreads (s : IOState) :
    (exit_mb_pnp_mode s).nreads = s.nreads + 1 := by
  simp [exit_mb_pnp_mode, write_indexed_nreads, read_indexed_snd_nreads]

lemma it87_config_oracle (b : Nat) (e : Bool) (s : IOState) :
    (it87_config b e s).oracle = s.oracle := by
  simp [it87_config, write_indexed_oracle, read_indexed_snd_oracle]

lemma it87_config_nreads (b : Nat) (e : Bool) (s : IOState) :
    (it87_config b e s).nreads = s.nreads + 1 := by
  simp [it87_config, write_indexed_nreads, read_indexed_snd_nreads]

lemma ITESensorRead_fst (b r : Nat) (s : IOState) :
    (ITESensorRead b r s).1 = s.oracle s.nreads % 256 := by
  simp [ITESensorRead, read_io_8_fst, write_io_8_oracle, write_io_8_nreads]

lemma ITESensorRead_snd_oracle (b r : Nat) (s : IOState) :
    (ITESensorRead b r s).2.oracle = s.oracle := by
  simp [ITESensorRead, read_io_8_snd_oracle, write_io_8_oracle]

lemma ITESensorRead_snd_nreads (b r : Nat) (s : IOState) :
    (ITESensorRead b r s).2.nreads = s.nreads + 1 := by
  simp [ITESensorRead, read_io_8_snd_nreads, write_io_8_nreads]

/-- Big-endian byte combination: `(hi << 8) | lo` equals `256 * hi + lo`
when `lo` is a byte. -/
lemma shiftLeft_or_eq_add (h l : Nat) (hl : l < 256) :
    (h <<< 8) ||| l = 256 * h + l := by
  have e : h <<< 8 = 2 ^ 8 * h := by rw [Nat.shiftLeft_eq]; ring
  rw [e, ← Nat.mul_add_lt_is_or (by omega : l < 2 ^ 8) h]

/-! ### Claims -/

/-- C1: the spec's temperature decode (two's-complement signed 8-bit
interpretation, `value >= 128 → value - 256`) disagrees with the code.
`TwosComplement` negates the byte over 32 bits (`~(unsigned)value + 1 = -value`)
instead of sign-extending it: raw 0x00, 0x7F and 0x80 decode as the claim says
(0, 127, -128), but raw 0xFF decodes to -255, not -1, and raw 0x81 decodes to
-129, which is not even in the signed 8-bit range. -/
theorem C1_temperature_decode_code_bug :
    TwosComplement 0x00 = 0 ∧ TwosComplement 0x7F = 127 ∧
    TwosComplement 0x80 = -128 ∧
    TwosComplement 0xFF = -255 ∧ (0xFF : Int) - 256 = -1 ∧
    TwosComplement 0xFF ≠ -1 ∧
    TwosComplement 0x81 = -129 := by
  decide

/-- C2 counterexample: the claim says count 1 yields the same result as
count 2 and that both the clamped counts and count 152 yield 4443 RPM.  In
the code count 1 is clamped to 152, giving 1350000 / 304 = 4440 RPM, while
count 2 gives 1350000 / 4 = 337500; and 1350000 / (152 * 2) is 4440, not
4443. -/
theorem C2_fan8_decode_counterexample :
    CountToRPM 1 = 4440 ∧ CountToRPM 2 = 337500 ∧
    CountToRPM 1 ≠ CountToRPM 2 ∧ 1350000 / (152 * 2) = 4440 ∧
    CountToRPM 1 ≠ 4443 := by
  decide

/-- C2 (amended): for every 8-bit tachometer count, count 255 yields 0 RPM;
counts below 2 are clamped to 152 before the division, so count 1 yields the
same result as count 152, namely 1350000 / (152 * 2) = 4440 RPM rounded
down; all other counts yield 1350000 / (count * 2). -/
theorem C2_fan8_decode_amended :
    ∀ count : Nat, count < 256 →
      (count = 255 → CountToRPM count = 0) ∧
      (count < 2 → CountToRPM count = CountToRPM 152 ∧ CountToRPM count = 4440) ∧
      (2 ≤ count → count ≠ 255 → CountToRPM count = 1350000 / (count * 2)) := by
  intro c _
  refine ⟨fun h => by simp [CountToRPM, h], fun h => ?_, fun h2 h255 => ?_⟩
  · have hne : c ≠ 255 := by omega
    constructor
    · simp [CountToRPM, hne, h]
    · simp [CountToRPM, hne, h]
  · simp [CountToRPM, h255, Nat.not_lt.mpr h2]

/-- Witness for C2: the amended statement applied at count 3. -/
theorem C2_fan8_decode_amended_witness :
    (3 : Nat) < 256 ∧
    (((3 : Nat) = 255 → CountToRPM 3 = 0) ∧
     ((3 : Nat) < 2 → CountToRPM 3 = CountToRPM 152 ∧ CountToRPM 3 = 4440) ∧
     (2 ≤ (3 : Nat) → (3 : Nat) ≠ 255 → CountToRPM 3 = 1350000 / (3 * 2))) :=
  ⟨by decide, C2_fan8_decode_amended 3 (by decide)⟩

/-- C3 counterexample: the claim (and spec section 8) says raw count 255 on
a scale-1.68 channel yields 6849 mV; the truncation of 255 * 16 * 1.68 =
6854.4 is 6854. -/
theorem C3_voltage_decode_counterexample :
    decodeVolt168 255 = 6854 ∧ (6854 : Int) ≠ 6849 ∧ scale168 255 = 6854 := by
  decide

/-- C3 (amended): voltage decode is linear and exact at boundary counts:
raw 0 yields 0 mV on every scale; raw 255 yields 4080 mV on a scale-1
channel, 6854 mV on a scale-1.68 channel (integer truncation of
255 * 16 * 1.68 = 6854.4) and 16320 mV on the scale-4 channel; the 1.68
factor is millivolt-accurate: `scale168` is exactly the truncation of the
rational product count * 16 * 168/100; and these decodes are what
`it87_refresh` stores (channel 0 is scale 1, channel 3 scale 1.68,
channel 4 scale 4, fed from sensor reads 1, 4 and 5). -/
theorem C3_voltage_decode_amended :
    decodeVolt1 0 = 0 ∧ decodeVolt168 0 = 0 ∧ decodeVolt4 0 = 0 ∧
    decodeVolt1 255 = 4080 ∧ decodeVolt168 255 = 6854 ∧ decodeVolt4 255 = 16320 ∧
    (∀ c : Nat, 100 * scale168 c ≤ c * 16 * 168 ∧
      c * 16 * 168 < 100 * (scale168 c + 1)) ∧
    (∀ (o : Nat → Nat) (base : Nat) (data : it87_sensors_data),
      (it87_refresh 0x8705 base data (initState o)).1.voltages 0 =
        decodeVolt1 (o 1 % 256) ∧
      (it87_refresh 0x8705 base data (initState o)).1.voltages 3 =
        decodeVolt168 (o 4 % 256) ∧
      (it87_refresh 0x8705 base data (initState o)).1.voltages 4 =
        decodeVolt4 (o 5 % 256)) := by
  refine ⟨by decide, by decide, by decide, by decide, by decide, by decide, ?_, ?_⟩
  · intro c
    unfold scale168
    omega
  · intro o base data
    refine ⟨?_, ?_, ?_⟩ <;>
      simp [it87_refresh, ITESensorRead_fst, ITESensorRead_snd_oracle,
        ITESensorRead_snd_nreads, it87_config_oracle, it87_config_nreads,
        enter_mb_pnp_mode_oracle, enter_mb_pnp_mode_nreads, initState]

/-- C4: detection returns the chip ID exactly when the 16-bit value read
big-endian from configuration registers 0x20/0x21 is one of the twelve
supported IDs, and the device-absent sentinel 0x0000 otherwise (in
particular for IDs 0x0000 and 0xFFFF). -/
theorem C4_chip_identification :
    (∀ o : Nat → Nat,
      (it87xx_detect (initState o)).1 =
        if ((o 0 % 256) <<< 8 ||| (o 1 % 256)) ∈ supportedChipIDs
        then (o 0 % 256) <<< 8 ||| (o 1 % 256) else 0) ∧
    (∀ id : Nat, id ∈ supportedChipIDs ↔
      (id = 0x8625 ∨ id = 0x8628 ∨ id = 0x8655 ∨ id = 0x8705 ∨ id = 0x8712 ∨
       id = 0x8718 ∨ id = 0x8720 ∨ id = 0x8721 ∨ id = 0x8726 ∨ id = 0x8728 ∨
       id = 0x8771 ∨ id = 0x8772)) ∧
    (it87xx_detect (initState (fun n => if n = 0 then 0x87 else 0x28))).1 = 0x8728 ∧
    (it87xx_detect (initState (fun _ => 0x00))).1 = 0 ∧
    (it87xx_detect (initState (fun _ => 0xFF))).1 = 0 := by
  refine ⟨?_, ?_, by decide, by decide, by decide⟩
  · intro o
    simp [it87xx_detect, read_indexed_fst, read_indexed_snd_oracle,
      read_indexed_snd_nreads, enter_mb_pnp_mode_oracle, enter_mb_pnp_mode_nreads,
      initState]
  · intro id
    simp [supportedChipIDs]

/-- C8: address resolution combines the bytes read from configuration
registers 0x60 (high) and 0x61 (low) big-endian; a resolved address of zero
makes `init_driver` fail with `ENOSYS`, an outcome distinct from the
`B_DEVICE_NOT_FOUND` that `init_hardware` reports when identification finds
no supported chip. -/
theorem C8_address_resolution :
    (∀ o : Nat → Nat,
      (find_isa_port_address (initState o)).1 = 256 * (o 0 % 256) + (o 1 % 256)) ∧
    (∀ (o : Nat → Nat) (chip : Nat),
      (find_isa_port_address (initState o)).1 = 0 →
      (init_driver true chip (initState o)).1 = status_t.ENOSYS) ∧
    status_t.ENOSYS ≠ status_t.B_DEVICE_NOT_FOUND ∧
    (∀ o : Nat → Nat,
      (it87xx_detect (initState o)).1 = 0 →
      (init_hardware true (initState o)).1 = status_t.B_DEVICE_NOT_FOUND) := by
  refine ⟨?_, ?_, by decide, ?_⟩
  · intro o
    have h := shiftLeft_or_eq_add (o 0 % 256) (o 1 % 256) (Nat.mod_lt _ (by norm_num))
    simp [find_isa_port_address, read_indexed_fst, read_indexed_snd_oracle,
      read_indexed_snd_nreads, write_indexed_oracle, write_indexed_nreads,
      enter_mb_pnp_mode_oracle, enter_mb_pnp_mode_nreads, initState, h]
  · intro o chip h
    simp [init_driver, h]
  · intro o h
    simp [init_hardware, h]

/-- Witness for C8: with an oracle that always returns 0, the resolved
address is 0 and `init_driver` fails with `ENOSYS`; detection yields 0 and
`init_hardware` reports `B_DEVICE_NOT_FOUND`. -/
theorem C8_address_resolution_witness :
    (init_driver true 0x8705 (initState (fun _ => 0))).1 = status_t.ENOSYS ∧
    (init_hardware true (initState (fun _ => 0))).1 = status_t.B_DEVICE_NOT_FOUND :=
  ⟨C8_address_resolution.2.1 (fun _ => 0) 0x8705 (by decide),
   C8_address_resolution.2.2.2 (fun _ => 0) (by decide)⟩

/-- C9: for every 8-bit fan count from 2 through 20 the computed RPM exceeds
32767, so the `int16` snapshot field stores the value reduced modulo 2^16
(count 2 computes 337500 but stores 9820, and count 4 stores a negative
value); the stored field in `it87_refresh` is exactly `toInt16` of the
computed RPM. -/
theorem C9_fan_rpm_int16_overflow :
    (∀ count : Nat, 2 ≤ count → count ≤ 20 →
      32767 < CountToRPM count ∧
      toInt16 (CountToRPM count) ≠ (CountToRPM count : Int) ∧
      toInt16 (CountToRPM count) % 65536 = (CountToRPM count : Int) % 65536) ∧
    (∀ (o : Nat → Nat) (base : Nat) (data : it87_sensors_data),
      (it87_refresh 0x8705 base data (initState o)).1.fans 0 =
        toInt16 (CountToRPM (o 13 % 256))) ∧
    toInt16 (CountToRPM 4) < 0 ∧
    toInt16 (CountToRPM 2) = 9820 ∧ CountToRPM 2 = 337500 ∧
    (9820 : Int) ≠ 337500 := by
  refine ⟨?_, ?_, by decide, by decide, by decide, by decide⟩
  · intro c h2 h20
    have hne : c ≠ 255 := by omega
    have hnl : ¬ c < 2 := by omega
    have hd : CountToRPM c = 1350000 / (c * 2) := by simp [CountToRPM, hne, hnl]
    have hlb : 33750 ≤ CountToRPM c := by
      rw [hd]
      calc 33750 = 1350000 / 40 := by norm_num
        _ ≤ 1350000 / (c * 2) := Nat.div_le_div_left (by omega) (by omega)
    have hub : CountToRPM c ≤ 337500 := by
      rw [hd]
      calc 1350000 / (c * 2) ≤ 1350000 / 4 :=
          Nat.div_le_div_left (by omega) (by omega)
        _ = 337500 := by norm_num
    have hlb' : (33750 : Int) ≤ (CountToRPM c : Int) := by exact_mod_cast hlb
    have hub' : (CountToRPM c : Int) ≤ 337500 := by exact_mod_cast hub
    refine ⟨by omega, ?_, ?_⟩
    · unfold toInt16
      omega
    · unfold toInt16
      omega
  · intro o base data
    simp [it87_refresh, ITESensorRead_fst, ITESensorRead_snd_oracle,
      ITESensorRead_snd_nreads, it87_config_oracle, it87_config_nreads,
      enter_mb_pnp_mode_oracle, enter_mb_pnp_mode_nreads, initState]

/-- Witness for C9: the overflow statement applied at count 4. -/
theorem C9_fan_rpm_int16_overflow_witness :
    2 ≤ (4 : Nat) ∧ (4 : Nat) ≤ 20 ∧
    (32767 < CountToRPM 4 ∧
     toInt16 (CountToRPM 4) ≠ (CountToRPM 4 : Int) ∧
     toInt16 (CountToRPM 4) % 65536 = (CountToRPM 4 : Int) % 65536) :=
  ⟨by decide, by decide, C9_fan_rpm_int16_overflow.1 4 (by decide) (by decide)⟩

/-- C10: the fan decodes never divide by zero: for every 8-bit count other
than the 255 early return, the divisor (the clamped count times two) is
nonzero, and the 16-bit decode divides only by counts that are not the 0
early return. -/
theorem C10_fan_divisions_total :
    (∀ count : Nat, count < 256 → count ≠ 255 →
      CountToRPM_divisor count ≠ 0 ∧
      CountToRPM count = 1350000 / CountToRPM_divisor count) ∧
    CountToRPM 255 = 0 ∧
    (∀ count : Nat, count < 65536 → count ≠ 0 → count ≠ 255 → count ≠ 65535 →
      Count16ToRPM count = 675000 / count) ∧
    Count16ToRPM 0 = 0 ∧ Count16ToRPM 255 = 0 ∧ Count16ToRPM 65535 = 0 := by
  refine ⟨?_, by decide, ?_, by decide, by decide, by decide⟩
  · intro c _ h255
    constructor
    · unfold CountToRPM_divisor
      split <;> omega
    · simp [CountToRPM, CountToRPM_divisor, h255]
  · intro c _ h0 h255 hFFFF
    simp [Count16ToRPM, h0, h255, hFFFF]

/-- Witness for C10: the totality statement applied at counts 3 and 1350. -/
theorem C10_fan_divisions_total_witness :
    (CountToRPM_divisor 3 ≠ 0 ∧ CountToRPM 3 = 1350000 / CountToRPM_divisor 3) ∧
    Count16ToRPM 1350 = 675000 / 1350 :=
  ⟨C10_fan_divisions_total.1 3 (by decide) (by decide),
   C10_fan_divisions_total.2.2.1 1350 (by decide) (by decide) (by decide) (by decide)⟩

/-! ### State-evolution helper lemmas for the session claims -/

/-- A write to any port other than the configuration pair 0x2E/0x2F leaves
the device-model state unchanged apart from the trace. -/
lemma write_io_8_other (p v : Nat) (s : IOState) (h1 : p ≠ 0x2E) (h2 : p ≠ 0x2F) :
    write_io_8 p v s = { s with trace := s.trace ++ [IOEvent.wr p v] } := by
  cases hsc : s.configMode <;> simp [write_io_8, h1, h2, hsc]

lemma read_io_8_state (p : Nat) (s : IOState) :
    (read_io_8 p s).2 =
      { s with
        nreads := s.nreads + 1
        trace := s.trace ++ [IOEvent.rd p (s.oracle s.nreads % 256)] } := rfl

/-- Entering MB PnP mode from the idle state: the four unlock bytes are
written, the chip enters configuration mode, and the enter counter ticks. -/
lemma enter_mb_pnp_mode_state (s : IOState) (h : s.configMode = false)
    (h2 : s.unlockProgress = 0) :
    enter_mb_pnp_mode s =
      { s with
        configMode := true
        enters := s.enters + 1
        unlockProgress := 0
        trace := s.trace ++ [IOEvent.wr 0x2E 0x87, IOEvent.wr 0x2E 0x01,
          IOEvent.wr 0x2E 0x55, IOEvent.wr 0x2E 0x55] } := by
  simp [enter_mb_pnp_mode, write_io_8, h, h2]

/-- Leaving MB PnP mode from configuration mode: session-control register
0x02 is read, bit 1 is set and the value is written back; the chip returns
to the "wait for key" state and the exit counter ticks. -/
lemma exit_mb_pnp_mode_state (s : IOState) (h : s.configMode = true) :
    exit_mb_pnp_mode s =
      { s with
        configMode := false
        exits := s.exits + 1
        pnpAddr := 2
        nreads := s.nreads + 1
        trace := s.trace ++ [IOEvent.wr 0x2E 0x02,
          IOEvent.rd 0x2F (s.oracle s.nreads % 256), IOEvent.wr 0x2E 0x02,
          IOEvent.wr 0x2F ((s.oracle s.nreads % 256) ||| 1 <<< 1)] } := by
  have htb : Nat.testBit (1 <<< 1) 1 = true := by decide
  have htb2 : Nat.testBit 2 1 = true := by decide
  simp [exit_mb_pnp_mode, read_indexed, write_indexed, write_io_8, read_io_8,
    h, Nat.testBit_or, htb, htb2]

/-- An all-zero sensor snapshot, used to instantiate universally quantified
statements at a concrete input. -/
def zeroData : it87_sensors_data :=
  { temps := fun _ => 0, fans := fun _ => 0, voltages := fun _ => 0 }

/-! ### Per-field evolution lemmas

The device-model fields `enters`, `exits` and `configMode` are only ever
changed by writes to the configuration ports 0x2E/0x2F, and the trace grows
by exactly one event per I/O operation in every branch; this yields
unconditional projection equations for all runtime-register accesses. -/

lemma write_io_8_trace (p v : Nat) (s : IOState) :
    (write_io_8 p v s).trace = s.trace ++ [IOEvent.wr p v] := by
  simp only [write_io_8]
  repeat' split
  all_goals rfl

lemma write_io_8_enters_ne (p v : Nat) (s : IOState) (h : p ≠ 0x2E) :
    (write_io_8 p v s).enters = s.enters := by
  simp only [write_io_8]
  repeat' split
  all_goals first | rfl | simp_all

lemma write_io_8_enters_val2 (s : IOState) :
    (write_io_8 0x2E 2 s).enters = s.enters := by
  simp only [write_io_8]
  repeat' split
  all_goals first | rfl | simp_all

lemma write_io_8_exits_ne (p v : Nat) (s : IOState) (h : p ≠ 0x2F) :
    (write_io_8 p v s).exits = s.exits := by
  simp only [write_io_8]
  repeat' split
  all_goals first | rfl | simp_all

lemma write_io_8_configMode_ne (p v : Nat) (s : IOState)
    (h1 : p ≠ 0x2E) (h2 : p ≠ 0x2F) :
    (write_io_8 p v s).configMode = s.configMode := by
  simp only [write_io_8]
  repeat' split
  all_goals first | rfl | simp_all

lemma read_io_8_snd_enters (p : Nat) (s : IOState) :
    (read_io_8 p s).2.enters = s.enters := rfl

lemma read_io_8_snd_exits (p : Nat) (s : IOState) :
    (read_io_8 p s).2.exits = s.exits := rfl

lemma read_io_8_snd_configMode (p : Nat) (s : IOState) :
    (read_io_8 p s).2.configMode = s.configMode := rfl

lemma read_io_8_snd_trace (p : Nat) (s : IOState) :
    (read_io_8 p s).2.trace = s.trace ++ [IOEvent.rd p (s.oracle s.nreads % 256)] := rfl

lemma ITESensorRead_snd_enters (b r : Nat) (s : IOState) (h : b + 5 ≠ 0x2E) :
    (ITESensorRead b r s).2.enters = s.enters := by
  simp [ITESensorRead, IT87_ADDR_PORT_OFFSET, IT87_DATA_PORT_OFFSET,
    read_io_8_snd_enters, write_io_8_enters_ne _ _ _ h]

lemma ITESensorRead_snd_exits (b r : Nat) (s : IOState) (h : b + 5 ≠ 0x2F) :
    (ITESensorRead b r s).2.exits = s.exits := by
  simp [ITESensorRead, IT87_ADDR_PORT_OFFSET, IT87_DATA_PORT_OFFSET,
    read_io_8_snd_exits, write_io_8_exits_ne _ _ _ h]

lemma ITESensorRead_snd_configMode (b r : Nat) (s : IOState)
    (h1 : b + 5 ≠ 0x2E) (h2 : b + 5 ≠ 0x2F) :
    (ITESensorRead b r s).2.configMode = s.configMode := by
  simp [ITESensorRead, IT87_ADDR_PORT_OFFSET, IT87_DATA_PORT_OFFSET,
    read_io_8_snd_configMode, write_io_8_configMode_ne _ _ _ h1 h2]

lemma ITESensorRead_snd_trace (b r : Nat) (s : IOState) :
    (ITESensorRead b r s).2.trace = s.trace ++
      [IOEvent.wr (b + 5) r, IOEvent.rd (b + 6) (s.oracle s.nreads % 256)] := by
  simp [ITESensorRead, IT87_ADDR_PORT_OFFSET, IT87_DATA_PORT_OFFSET,
    read_io_8_snd_trace, write_io_8_trace, write_io_8_oracle, write_io_8_nreads]

lemma it87_config_enters (b : Nat) (e : Bool) (s : IOState)
    (h : b ≠ 0x2E) (h1 : b + 1 ≠ 0x2E) :
    (it87_config b e s).enters = s.enters := by
  simp [it87_config, read_indexed, write_indexed, read_io_8_snd_enters,
    write_io_8_enters_ne _ _ _ h, write_io_8_enters_ne _ _ _ h1]

lemma it87_config_exits (b : Nat) (e : Bool) (s : IOState)
    (h : b ≠ 0x2F) (h1 : b + 1 ≠ 0x2F) :
    (it87_config b e s).exits = s.exits := by
  simp [it87_config, read_indexed, write_indexed, read_io_8_snd_exits,
    write_io_8_exits_ne _ _ _ h, write_io_8_exits_ne _ _ _ h1]

lemma it87_config_configMode (b : Nat) (e : Bool) (s : IOState)
    (hb : b ≠ 0x2E) (hb' : b ≠ 0x2F) (hb1 : b + 1 ≠ 0x2E) (hb1' : b + 1 ≠ 0x2F) :
    (it87_config b e s).configMode = s.configMode := by
  simp [it87_config, read_indexed, write_indexed, read_io_8_snd_configMode,
    write_io_8_configMode_ne _ _ _ hb hb', write_io_8_configMode_ne _ _ _ hb1 hb1']

lemma it87_config_trace (b : Nat) (e : Bool) (s : IOState) :
    (it87_config b e s).trace = s.trace ++
      [IOEvent.wr b IT87_REG_CONFIG,
       IOEvent.rd (b + 1) (s.oracle s.nreads % 256),
       IOEvent.wr b IT87_REG_CONFIG,
       IOEvent.wr (b + 1)
         (if e then ((s.oracle s.nreads % 256) ||| 1 <<< 6) ||| 1 <<< 0
          else ((s.oracle s.nreads % 256) &&& 191) &&& 254)] := by
  cases e <;>
    simp [it87_config, read_indexed, write_indexed, read_io_8_snd_trace,
      read_io_8_fst, write_io_8_trace, write_io_8_oracle, write_io_8_nreads,
      read_io_8_snd_oracle, read_io_8_snd_nreads]

lemma enter_mb_pnp_mode_enters (s : IOState) (h : s.configMode = false)
    (h2 : s.unlockProgress = 0) :
    (enter_mb_pnp_mode s).enters = s.enters + 1 := by
  rw [enter_mb_pnp_mode_state s h h2]

lemma enter_mb_pnp_mode_exits (s : IOState) :
    (enter_mb_pnp_mode s).exits = s.exits := by
  simp [enter_mb_pnp_mode, write_io_8_exits_ne _ _ _ (by decide : (0x2E : Nat) ≠ 0x2F)]

lemma enter_mb_pnp_mode_configMode (s : IOState) (h : s.configMode = false)
    (h2 : s.unlockProgress = 0) :
    (enter_mb_pnp_mode s).configMode = true := by
  rw [enter_mb_pnp_mode_state s h h2]

lemma enter_mb_pnp_mode_trace (s : IOState) :
    (enter_mb_pnp_mode s).trace = s.trace ++
      [IOEvent.wr 0x2E 0x87, IOEvent.wr 0x2E 0x01,
       IOEvent.wr 0x2E 0x55, IOEvent.wr 0x2E 0x55] := by
  simp [enter_mb_pnp_mode, write_io_8_trace]

lemma exit_mb_pnp_mode_exits (s : IOState) (h : s.configMode = true) :
    (exit_mb_pnp_mode s).exits = s.exits + 1 := by
  rw [exit_mb_pnp_mode_state s h]

lemma exit_mb_pnp_mode_enters (s : IOState) :
    (exit_mb_pnp_mode s).enters = s.enters := by
  simp [exit_mb_pnp_mode, read_indexed, write_indexed, read_io_8_snd_enters,
    write_io_8_enters_val2,
    write_io_8_enters_ne _ _ _ (by decide : (0x2F : Nat) ≠ 0x2E),
    write_io_8_nreads, write_io_8_oracle]

lemma exit_mb_pnp_mode_configMode (s : IOState) (h : s.configMode = true) :
    (exit_mb_pnp_mode s).configMode = false := by
  rw [exit_mb_pnp_mode_state s h]

lemma exit_mb_pnp_mode_trace (s : IOState) :
    (exit_mb_pnp_mode s).trace = s.trace ++
      [IOEvent.wr 0x2E 0x02, IOEvent.rd 0x2F (s.oracle s.nreads % 256),
       IOEvent.wr 0x2E 0x02,
       IOEvent.wr 0x2F ((s.oracle s.nreads % 256) ||| 1 <<< 1)] := by
  simp [exit_mb_pnp_mode, read_indexed, write_indexed, read_io_8_snd_trace,
    read_io_8_fst, write_io_8_trace, write_io_8_oracle, write_io_8_nreads,
    read_io_8_snd_oracle, read_io_8_snd_nreads]

set_option maxHeartbeats 4000000 in
/-- C5: every operation that enters configuration mode (detection, address
resolution, refresh) releases it exactly once on its way out: starting from
the idle state, the device-model enter and exit counters both end at 1 and
the chip is no longer in configuration mode when the operation returns, for
every oracle, runtime base address, chip ID and initial snapshot. -/
theorem C5_config_mode_session_release :
    ∀ (o : Nat → Nat) (base chip : Nat) (data : it87_sensors_data),
      0x2F < base →
      ((it87xx_detect (initState o)).2.enters = 1 ∧
       (it87xx_detect (initState o)).2.exits = 1 ∧
       (it87xx_detect (initState o)).2.configMode = false) ∧
      ((find_isa_port_address (initState o)).2.enters = 1 ∧
       (find_isa_port_address (initState o)).2.exits = 1 ∧
       (find_isa_port_address (initState o)).2.configMode = false) ∧
      ((it87_refresh chip base data (initState o)).2.enters = 1 ∧
       (it87_refresh chip base data (initState o)).2.exits = 1 ∧
       (it87_refresh chip base data (initState o)).2.configMode = false) := by
  intro o base chip data hbase
  refine ⟨?_, ?_, ?_⟩
  · refine ⟨?_, ?_, ?_⟩ <;>
      simp [it87xx_detect, read_indexed, read_io_8, write_io_8,
        enter_mb_pnp_mode_state, exit_mb_pnp_mode_state, initState]
  · refine ⟨?_, ?_, ?_⟩ <;>
      simp [find_isa_port_address, read_indexed, write_indexed, read_io_8,
        write_io_8, enter_mb_pnp_mode_state, exit_mb_pnp_mode_state, initState]
  · have hb2E : base ≠ 0x2E := by omega
    have hb2F : base ≠ 0x2F := by omega
    have hb12E : base + 1 ≠ 0x2E := by omega
    have hb12F : base + 1 ≠ 0x2F := by omega
    have hb52E : base + 5 ≠ 0x2E := by omega
    have hb52F : base + 5 ≠ 0x2F := by omega
    have cE : ∀ (e : Bool) s, (it87_config base e s).enters = s.enters :=
      fun e s => it87_config_enters base e s hb2E hb12E
    have cX : ∀ (e : Bool) s, (it87_config base e s).exits = s.exits :=
      fun e s => it87_config_exits base e s hb2F hb12F
    have cC : ∀ (e : Bool) s, (it87_config base e s).configMode = s.configMode :=
      fun e s => it87_config_configMode base e s hb2E hb2F hb12E hb12F
    have rE : ∀ (r : Nat) s, (ITESensorRead base r s).2.enters = s.enters :=
      fun r s => ITESensorRead_snd_enters base r s hb52E
    have rX : ∀ (r : Nat) s, (ITESensorRead base r s).2.exits = s.exits :=
      fun r s => ITESensorRead_snd_exits base r s hb52F
    have rC : ∀ (r : Nat) s, (ITESensorRead base r s).2.configMode = s.configMode :=
      fun r s => ITESensorRead_snd_configMode base r s hb52E hb52F
    have hent : (enter_mb_pnp_mode (initState o)).configMode = true :=
      enter_mb_pnp_mode_configMode _ (by simp [initState]) (by simp [initState])
    have hentE : (enter_mb_pnp_mode (initState o)).enters = 1 := by
      rw [enter_mb_pnp_mode_enters _ (by simp [initState]) (by simp [initState])]
      rfl
    have hentX : (enter_mb_pnp_mode (initState o)).exits = 0 := by
      rw [enter_mb_pnp_mode_exits]
      rfl
    by_cases hchip : chip = 0x8705 ∨ chip = 0x8712 <;>
      refine ⟨?_, ?_, ?_⟩ <;>
        simp [it87_refresh, hchip, cE, cX, cC, rE, rX, rC, hent, hentE, hentX,
          exit_mb_pnp_mode_enters, exit_mb_pnp_mode_exits,
          exit_mb_pnp_mode_configMode]

/-- Witness for C5: the statement applied at a concrete oracle, base
address 0x290, chip 0x8705 and the all-zero snapshot. -/
theorem C5_config_mode_session_release_witness :
    ((it87xx_detect (initState (fun _ => 0))).2.enters = 1 ∧
     (it87xx_detect (initState (fun _ => 0))).2.exits = 1 ∧
     (it87xx_detect (initState (fun _ => 0))).2.configMode = false) ∧
    ((find_isa_port_address (initState (fun _ => 0))).2.enters = 1 ∧
     (find_isa_port_address (initState (fun _ => 0))).2.exits = 1 ∧
     (find_isa_port_address (initState (fun _ => 0))).2.configMode = false) ∧
    ((it87_refresh 0x8705 0x290 zeroData (initState (fun _ => 0))).2.enters = 1 ∧
     (it87_refresh 0x8705 0x290 zeroData (initState (fun _ => 0))).2.exits = 1 ∧
     (it87_refresh 0x8705 0x290 zeroData (initState (fun _ => 0))).2.configMode
       = false) :=
  C5_config_mode_session_release (fun _ => 0) 0x290 0x8705 zeroData (by decide)

/-- C6 counterexample: the claim says the two unused fan slots are left at a
defined zero/unused value; in the code `it87_refresh` simply does not touch
`fans[3]` and `fans[4]` on legacy chips, so they keep whatever value the
caller's buffer already held (here 7, not 0). -/
theorem C6_fan_slots_counterexample :
    (it87_refresh 0x8705 0x290
        { temps := fun _ => 0, fans := fun _ => 7, voltages := fun _ => 0 }
        (initState (fun _ => 0))).1.fans 3 = 7 ∧ (7 : Int) ≠ 0 := by
  refine ⟨?_, by decide⟩
  set_option maxRecDepth 8192 in decide

/-- C6 (amended): for the legacy 8-bit-tachometer variants (chip IDs 0x8705
and 0x8712) a refresh populates only the first 3 fan slots of the snapshot
(with the decoded 8-bit tachometer readings) and leaves the remaining 2 fan
slots unchanged, holding whatever values the caller's snapshot already
contained — not a defined zero. -/
theorem C6_fan_slots_amended :
    ∀ (o : Nat → Nat) (base chip : Nat) (data : it87_sensors_data),
      chip = 0x8705 ∨ chip = 0x8712 →
      (it87_refresh chip base data (initState o)).1.fans 0 =
        toInt16 (CountToRPM (o 13 % 256)) ∧
      (it87_refresh chip base data (initState o)).1.fans 1 =
        toInt16 (CountToRPM (o 14 % 256)) ∧
      (it87_refresh chip base data (initState o)).1.fans 2 =
        toInt16 (CountToRPM (o 15 % 256)) ∧
      (it87_refresh chip base data (initState o)).1.fans 3 = data.fans 3 ∧
      (it87_refresh chip base data (initState o)).1.fans 4 = data.fans 4 := by
  intro o base chip data hchip
  refine ⟨?_, ?_, ?_, ?_, ?_⟩ <;>
    simp [it87_refresh, hchip, ITESensorRead_fst, ITESensorRead_snd_oracle,
      ITESensorRead_snd_nreads, it87_config_oracle, it87_config_nreads,
      enter_mb_pnp_mode_oracle, enter_mb_pnp_mode_nreads, initState]

/-- Witness for C6: the amended statement applied at chip 0x8712 with an
all-zero oracle and snapshot. -/
theorem C6_fan_slots_amended_witness :
    (it87_refresh 0x8712 0x290 zeroData (initState (fun _ => 0))).1.fans 0 =
      toInt16 (CountToRPM 0) ∧
    (it87_refresh 0x8712 0x290 zeroData (initState (fun _ => 0))).1.fans 1 =
      toInt16 (CountToRPM 0) ∧
    (it87_refresh 0x8712 0x290 zeroData (initState (fun _ => 0))).1.fans 2 =
      toInt16 (CountToRPM 0) ∧
    (it87_refresh 0x8712 0x290 zeroData (initState (fun _ => 0))).1.fans 3 =
      zeroData.fans 3 ∧
    (it87_refresh 0x8712 0x290 zeroData (initState (fun _ => 0))).1.fans 4 =
      zeroData.fans 4 :=
  C6_fan_slots_amended (fun _ => 0) 0x290 0x8712 zeroData (Or.inr rfl)

set_option maxHeartbeats 4000000 in
/-- C7: a refresh first reads the runtime configuration register and writes
it back with bits 0 (start monitoring) and 6 (update VBAT) set, and at the
end reads it again and writes it back with those same two bits cleared;
these are the only two writes the transaction makes to that register, both
are read-modify-write (every bit other than 0 and 6 is carried over from the
value just read), and the final write leaves bits 0 and 6 clear, i.e.
monitoring disabled. -/
theorem C7_runtime_config_rmw :
    ∀ (o : Nat → Nat) (base chip : Nat) (data : it87_sensors_data),
      0x2F < base →
      (indexedWrites base IT87_REG_CONFIG
          ((it87_refresh chip base data (initState o)).2.trace) =
        [((o 0 % 256) ||| 1 <<< 6) ||| 1 <<< 0,
         ((o (if chip = 0x8705 ∨ chip = 0x8712 then 16 else 23) % 256) &&& 191)
           &&& 254]) ∧
      (∀ v : Nat, v < 256 →
        (((v ||| 1 <<< 6) ||| 1 <<< 0).testBit 0 = true ∧
         ((v ||| 1 <<< 6) ||| 1 <<< 0).testBit 6 = true ∧
         ((v &&& 191) &&& 254).testBit 0 = false ∧
         ((v &&& 191) &&& 254).testBit 6 = false) ∧
        (∀ j : Nat, j < 8 → j ≠ 0 → j ≠ 6 →
          ((v ||| 1 <<< 6) ||| 1 <<< 0).testBit j = v.testBit j ∧
          ((v &&& 191) &&& 254).testBit j = v.testBit j)) := by
  intro o base chip data hbase
  constructor
  · have n1 : ¬((0x2E : Nat) = base) := by omega
    have n2 : ¬((0x2F : Nat) = base) := by omega
    have n3 : ¬(base + 1 = base) := by omega
    have n4 : ¬(base + 5 = base) := by omega
    by_cases hchip : chip = 0x8705 ∨ chip = 0x8712 <;>
      simp [hchip, it87_refresh, it87_config_trace, ITESensorRead_snd_trace,
        enter_mb_pnp_mode_trace, exit_mb_pnp_mode_trace,
        ITESensorRead_snd_oracle, ITESensorRead_snd_nreads, it87_config_oracle,
        it87_config_nreads, enter_mb_pnp_mode_oracle, enter_mb_pnp_mode_nreads,
        initState, indexedWrites, n1, n2, n3, n4]
  · set_option maxRecDepth 4096 in decide

/-- Witness for C7: the statement applied at a concrete oracle (all zeros),
base address 0x290, chip 0x8705 and the all-zero snapshot: the enable write
is 0x41 (bits 0 and 6 on an all-zero read) and the disable write is 0x00. -/
theorem C7_runtime_config_rmw_witness :
    (indexedWrites 0x290 IT87_REG_CONFIG
        ((it87_refresh 0x8705 0x290 zeroData (initState (fun _ => 0))).2.trace) =
      [65, 0]) ∧
    (∀ v : Nat, v < 256 →
      (((v ||| 1 <<< 6) ||| 1 <<< 0).testBit 0 = true ∧
       ((v ||| 1 <<< 6) ||| 1 <<< 0).testBit 6 = true ∧
       ((v &&& 191) &&& 254).testBit 0 = false ∧
       ((v &&& 191) &&& 254).testBit 6 = false) ∧
      (∀ j : Nat, j < 8 → j ≠ 0 → j ≠ 6 →
        ((v ||| 1 <<< 6) ||| 1 <<< 0).testBit j = v.testBit j ∧
        ((v &&& 191) &&& 254).testBit j = v.testBit j)) := by
  have h := C7_runtime_config_rmw (fun _ => 0) 0x290 0x8705 zeroData (by decide)
  exact ⟨h.1, h.2⟩
